import Mathlib

/-!
Verification of the Optima-Pricer pricing decision engine.

The Python source (backend/app/services/price_optimizer.py,
backend/app/blueprints/products.py, backend/app/blueprints/recommendations.py)
is embedded shallowly over ℚ: Python floats become exact rationals, and
Python's `round(x, n)` is modelled as rounding `x * 10^n` to the nearest
integer (ties follow Mathlib's `round`, i.e. half-up; all concrete inputs
used below stay away from exact halves, where Python's half-to-even would
differ).  Python's float `**` with a fractional exponent is transcendental
and has no exact rational embedding, so the demand-curve power function is
taken as an explicit function parameter `powf`; every statement about the
curve is uniform in `powf`.
-/

namespace OptimaPricer

/-- Round a rational to the nearest integer, halves up: `⌊x + 1/2⌋`. -/
def roundQ (x : ℚ) : ℤ := ⌊x + 1/2⌋

/-- Python `round(x, n)`, over ℚ: round `x·10^n` to the nearest integer,
then scale back. -/
def roundTo (n : ℕ) (x : ℚ) : ℚ := ((roundQ (x * (10 : ℚ) ^ n) : ℤ) : ℚ) / (10 : ℚ) ^ n

/-- Python `round(x, 2)`. -/
def round2 (x : ℚ) : ℚ := roundTo 2 x

/-- Python `round(x, 1)`. -/
def round1 (x : ℚ) : ℚ := roundTo 1 x

/-- Python `round(x)` (round to an integer). -/
def round0 (x : ℚ) : ℚ := ((roundQ x : ℤ) : ℚ)

/-- Evaluation rule for `roundQ` at explicit numerals. -/
theorem roundQ_eq {x : ℚ} {z : ℤ} (h1 : (z : ℚ) ≤ x + 1/2) (h2 : x + 1/2 < (z : ℚ) + 1) :
    roundQ x = z := by
  unfold roundQ
  exact Int.floor_eq_iff.mpr ⟨h1, by linarith⟩

/-- Evaluation rule for `round2` at explicit numerals. -/
theorem round2_eq {x y : ℚ} (z : ℤ) (h1 : (z : ℚ) ≤ x * 100 + 1/2)
    (h2 : x * 100 + 1/2 < (z : ℚ) + 1) (h3 : (z : ℚ) / 100 = y) : round2 x = y := by
  unfold round2 roundTo
  have h100 : (10 : ℚ) ^ 2 = 100 := by norm_num
  rw [h100, roundQ_eq h1 h2, h3]

/-- Evaluation rule for `round1` at explicit numerals. -/
theorem round1_eq {x y : ℚ} (z : ℤ) (h1 : (z : ℚ) ≤ x * 10 + 1/2)
    (h2 : x * 10 + 1/2 < (z : ℚ) + 1) (h3 : (z : ℚ) / 10 = y) : round1 x = y := by
  unfold round1 roundTo
  have h10 : (10 : ℚ) ^ 1 = 10 := by norm_num
  rw [h10, roundQ_eq h1 h2, h3]

/-- Evaluation rule for `round0` at explicit numerals. -/
theorem round0_eq {x y : ℚ} (z : ℤ) (h1 : (z : ℚ) ≤ x + 1/2)
    (h2 : x + 1/2 < (z : ℚ) + 1) (h3 : (z : ℚ) = y) : round0 x = y := by
  unfold round0
  rw [roundQ_eq h1 h2, h3]

/-- Python `sum(xs)`. -/
def listSum (xs : List ℚ) : ℚ := xs.sum

/-- Python `min(xs)` on a non-empty list (`0` on `[]`, which the code
never evaluates: every use is guarded by a non-emptiness test). -/
def listMin : List ℚ → ℚ
  | [] => 0
  | x :: xs => xs.foldl min x

/-- Python `max(xs)` on a non-empty list (`0` on `[]`, guarded likewise). -/
def listMax : List ℚ → ℚ
  | [] => 0
  | x :: xs => xs.foldl max x

/-- The `Product` data structure of price_optimizer.py. -/
structure Product where
  id : String
  name : String
  sku : String
  category : String
  cost_price : ℚ
  current_price : ℚ
  competitor_price : Option ℚ
  sales_velocity : ℚ
deriving DecidableEq, Repr

/-- The dict returned by `PriceOptimizer.optimize_price` (camelCase keys). -/
structure Recommendation where
  suggestedPrice : ℚ
  predictedMargin : ℚ
  confidenceScore : ℕ
  rationale : String
  riskLevel : String
  strategy : String
  marketPosition : String
  implementationTiming : String
  revenueImpact : ℚ
  competitorMinPrice : ℚ
  competitorMaxPrice : ℚ
deriving DecidableEq, Repr

/-- All fields of the recommendation before the final `round(...)` calls. -/
structure RawRecommendation where
  suggested : ℚ
  strategy : String
  rationale : String
  confidence : ℕ
  risk : String
  market_position : String
  implementation_timing : String
  predicted_margin : ℚ
  revenue_impact : ℚ
  min_competitor : ℚ
  max_competitor : ℚ
deriving DecidableEq, Repr

/-- The secondary filter of `optimize_price` (price_optimizer.py lines 32-39):
keep prices within `[current*0.1, current*5.0]`, bounds inclusive. -/
def filtered_prices (current_price : ℚ) (ps : List ℚ) : List ℚ :=
  ps.filter fun p => decide (current_price * 0.1 ≤ p ∧ p ≤ current_price * 5.0)

/-- The competitor-price list `optimize_price` actually uses for statistics:
if the input list is non-empty and `current_price > 0`, the filtered list
when it is non-empty, else the unfiltered input (lines 32-44). -/
def used_prices (current_price : ℚ) (ps : List ℚ) : List ℚ :=
  if ps ≠ [] ∧ 0 < current_price then
    if filtered_prices current_price ps ≠ [] then filtered_prices current_price ps else ps
  else ps

/-- The `avg_competitor_price` of line 47: mean of the list, or `current_price`
when the list is empty. -/
def avg_competitor_price (current_price : ℚ) (ps : List ℚ) : ℚ :=
  if ps ≠ [] then listSum ps / (ps.length : ℚ) else current_price

/-- The `min_competitor_price` of line 48. -/
def min_competitor_price (current_price : ℚ) (ps : List ℚ) : ℚ :=
  if ps ≠ [] then listMin ps else current_price * 0.9

/-- The `max_competitor_price` of line 49. -/
def max_competitor_price (current_price : ℚ) (ps : List ℚ) : ℚ :=
  if ps ≠ [] then listMax ps else current_price * 1.15

/-- The suggested price of `optimize_price` before the margin floor (lines
54-70): average of the used samples when any exist, otherwise the current
price. -/
def pre_floor_suggested (product : Product) (ps0 : List ℚ) : ℚ :=
  avg_competitor_price product.current_price (used_prices product.current_price ps0)

/-- The `strategy` assignment of the decision branch (lines 56-70). -/
def base_strategy (ps : List ℚ) : String :=
  if ps ≠ [] then "Match Market" else "No Data"

/-- The `rationale` assignment of the decision branch (lines 56-70). -/
def base_rationale (ps : List ℚ) : String :=
  if ps ≠ [] then
    "Price matched to market average from " ++ toString ps.length ++
      " scraped sources. Aligning with current market conditions."
  else "No recent market data available. Using current price."

/-- The `confidence_score` assignment of the decision branch (lines 56-70). -/
def base_confidence (ps : List ℚ) : ℕ :=
  if ps ≠ [] then 85 else 50

/-- The `risk_level` assignment of the decision branch (lines 56-70). -/
def base_risk (ps : List ℚ) : String :=
  if ps ≠ [] then "low" else "medium"

/-- The `market_position` assignment of the decision branch (lines 56-70). -/
def base_market_position (ps : List ℚ) : String :=
  if ps ≠ [] then "Competitive" else "Unknown"

/-- The margin-floor block of `optimize_price` (lines 77-87), with
`min_price = cost_price * 1.2`: returns the updated
(suggested price, rationale, risk level). -/
def floor_step (cost_price s0 : ℚ) (rationale0 risk0 : String) : ℚ × String × String :=
  if s0 < cost_price * 1.2 then
    if cost_price * 1.1 ≤ s0 then
      (cost_price * 1.2, rationale0 ++ " Adjusted to maintain minimum 20% margin.", "medium")
    else
      (s0, rationale0 ++
        " WARNING: Market price is below recommended minimum margin. Consider reviewing cost structure.",
        "high")
  else (s0, rationale0, risk0)

/-- The body of `PriceOptimizer.optimize_price` before the output rounding (lines 25-103). -/
def optimizeCore (product : Product) (ps0 : List ℚ) : RawRecommendation :=
  let current_price := product.current_price
  let cost_price := product.cost_price
  let current_margin := if 0 < current_price then
    (current_price - cost_price) / current_price * 100 else 0
  let ps := used_prices current_price ps0
  let s0 := avg_competitor_price current_price ps
  let strategy := base_strategy ps
  let confidence : ℕ := base_confidence ps
  let market_position := base_market_position ps
  let step : ℚ × String × String := floor_step cost_price s0 (base_rationale ps) (base_risk ps)
  let suggested := step.1
  let rationale := step.2.1
  let risk := step.2.2
  let predicted_margin := if 0 < suggested then
    (suggested - cost_price) / suggested * 100 else 0
  let price_change := suggested - current_price
  let revenue_impact := product.sales_velocity * price_change * 4
  let implementation_timing :=
    if risk = "high" ∨ current_price * 0.1 < |price_change| then "Phased - Monitor closely"
    else if 0 < price_change ∧ current_margin < 30 then "Immediate - High opportunity"
    else "Immediate"
  { suggested, strategy, rationale, confidence, risk, market_position,
    implementation_timing, predicted_margin, revenue_impact,
    min_competitor := min_competitor_price current_price ps,
    max_competitor := max_competitor_price current_price ps }

/-- The full `PriceOptimizer.optimize_price` (lines 22-116): the raw pipeline followed
by the rounding in the returned dict (lines 104-116). -/
def optimize_price (product : Product) (ps0 : List ℚ) : Recommendation :=
  let r := optimizeCore product ps0
  { suggestedPrice := round2 r.suggested
    predictedMargin := round1 r.predicted_margin
    confidenceScore := r.confidence
    rationale := r.rationale
    riskLevel := r.risk
    strategy := r.strategy
    marketPosition := r.market_position
    implementationTiming := r.implementation_timing
    revenueImpact := round0 r.revenue_impact
    competitorMinPrice := round2 r.min_competitor
    competitorMaxPrice := round2 r.max_competitor }

/-- The suggested price of the raw pipeline is the margin-floor output. -/
theorem optimizeCore_suggested (p : Product) (l : List ℚ) :
    (optimizeCore p l).suggested
      = (floor_step p.cost_price (pre_floor_suggested p l)
          (base_rationale (used_prices p.current_price l))
          (base_risk (used_prices p.current_price l))).1 := rfl

/-- The risk level of the raw pipeline is the margin-floor output. -/
theorem optimizeCore_risk (p : Product) (l : List ℚ) :
    (optimizeCore p l).risk
      = (floor_step p.cost_price (pre_floor_suggested p l)
          (base_rationale (used_prices p.current_price l))
          (base_risk (used_prices p.current_price l))).2.2 := rfl

/-- The rationale of the raw pipeline is the margin-floor output. -/
theorem optimizeCore_rationale (p : Product) (l : List ℚ) :
    (optimizeCore p l).rationale
      = (floor_step p.cost_price (pre_floor_suggested p l)
          (base_rationale (used_prices p.current_price l))
          (base_risk (used_prices p.current_price l))).2.1 := rfl

/-- The returned suggested price is the raw one rounded to 2 decimals. -/
theorem optimize_price_suggestedPrice (p : Product) (l : List ℚ) :
    (optimize_price p l).suggestedPrice = round2 (optimizeCore p l).suggested := rfl

/-- The returned risk level is the raw pipeline's risk level. -/
theorem optimize_price_riskLevel (p : Product) (l : List ℚ) :
    (optimize_price p l).riskLevel = (optimizeCore p l).risk := rfl

/-- The raw revenue impact is `sales_velocity * (suggested - current) * 4`. -/
theorem optimizeCore_revenue_impact (p : Product) (l : List ℚ) :
    (optimizeCore p l).revenue_impact
      = p.sales_velocity * ((optimizeCore p l).suggested - p.current_price) * 4 := rfl

/-- The luxury category list of `_estimate_elasticity` (line 123). -/
def luxury_categories : List String := ["Shapewear", "Loungewear"]

/-- The elasticity value of `_estimate_elasticity` before the final clamp
(lines 120-135). -/
def elasticityPreClamp (product : Product) (current_margin : ℚ) : ℚ :=
  let e0 : ℚ := 1.5
  let e1 := if product.category ∈ luxury_categories then e0 - 0.3 else e0
  let e2 := if 50 < current_margin then e1 - 0.5
    else if current_margin < 30 then e1 + 0.3 else e1
  if 50 < product.sales_velocity then e2 + 0.2 else e2

/-- The `PriceOptimizer._estimate_elasticity` heuristic (lines 118-137). -/
def _estimate_elasticity (product : Product) (current_margin : ℚ) : ℚ :=
  max 0.5 (min 3.0 (elasticityPreClamp product current_margin))

/-- A point of `calculate_elasticity_curve`: price and demand. -/
structure CurvePoint where
  price : ℚ
  demand : ℚ
deriving DecidableEq, Repr

/-- The elasticity input margin of `calculate_elasticity_curve` (line 153)
and `get_elasticity_curve` (recommendations.py line 298). -/
def curve_margin (cost_price current_price : ℚ) : ℚ :=
  if 0 < current_price then (current_price - cost_price) / current_price * 100 else 0

/-- The price at grid index `i` of `calculate_elasticity_curve` (lines
157-168): `min_price + (max_price - min_price) * i/19` with
`min_price = max(cost*0.8, current*0.5)` and
`max_price = min(current*2.0, current*1.5)`. -/
def curve_price (cost_price current_price : ℚ) (i : ℕ) : ℚ :=
  max (cost_price * 0.8) (current_price * 0.5) +
    (min (current_price * 2.0) (current_price * 1.5) -
      max (cost_price * 0.8) (current_price * 0.5)) * ((i : ℚ) / 19)

/-- The clamped demand at grid index `i` of `calculate_elasticity_curve`
(lines 170-177), evaluated at the unrounded grid price. -/
def curve_demand (powf : ℚ → ℚ → ℚ) (product : Product)
    (current_price base_demand : ℚ) (i : ℕ) : ℚ :=
  let price := curve_price product.cost_price current_price i
  let price_rat := if 0 < price then current_price / price else 1
  let demand := base_demand * powf price_rat
    (_estimate_elasticity product (curve_margin product.cost_price current_price))
  max 0 (min demand (base_demand * 3))

/-- The `PriceOptimizer.calculate_elasticity_curve` loop (lines 139-186).  `powf b e`
stands for Python's float power `b ** e`; the curve shape is stated uniformly
in it.  `suggested_price` is accepted and unused, as in the source. -/
def calculate_elasticity_curve (powf : ℚ → ℚ → ℚ) (product : Product)
    (current_price suggested_price : ℚ) (base_demand : ℚ) : List CurvePoint :=
  (List.range 20).map fun i =>
    { price := round2 (curve_price product.cost_price current_price i)
      demand := round1 (curve_demand powf product current_price base_demand i) }

/-- A row of `curve_with_metrics` in `get_elasticity_curve`
(recommendations.py lines 320-333). -/
structure MetricPoint where
  price : ℚ
  demand : ℚ
  revenue : ℚ
  profit : ℚ
  profitMargin : ℚ
deriving DecidableEq, Repr

/-- The per-point revenue/profit computation of `get_elasticity_curve`
(recommendations.py lines 320-333). -/
def curve_with_metrics (cost_price : ℚ) (curve : List CurvePoint) : List MetricPoint :=
  curve.map fun pt =>
    { price := pt.price
      demand := pt.demand
      revenue := round2 (pt.demand * pt.price)
      profit := round2 (pt.demand * (pt.price - cost_price))
      profitMargin := round1 (if (0 : ℚ) < pt.price then
        (pt.price - cost_price) / pt.price * 100 else 0) }

/-- Python's `max(c0 :: rest, key=profit)`: scan left to right, replace the
best element only on a strictly larger key, so ties keep the earliest. -/
def discreteMaxBy (c0 : MetricPoint) (rest : List MetricPoint) : MetricPoint :=
  rest.foldl (fun best x => if best.profit < x.profit then x else best) c0

/-- The `optimal_price_calc` value of `get_elasticity_curve` (recommendations.py lines
348-352): `cost * e / (e - 1)`, raised to at least `cost * 1.1`, then capped
at `current * 2.0`. -/
def optimal_price_calc (cost_price current_price elasticity : ℚ) : ℚ :=
  min (max (cost_price * 1.1) (cost_price * elasticity / (elasticity - 1)))
    (current_price * 2.0)

/-- The `optimal_demand_calc` value of `get_elasticity_curve` (lines 355-357): the
clamped constant-elasticity demand at the optimal price. -/
def optimal_demand_calc (powf : ℚ → ℚ → ℚ)
    (cost_price current_price base_demand elasticity : ℚ) : ℚ :=
  max 0 (min (base_demand * powf
      (if 0 < optimal_price_calc cost_price current_price elasticity then
        current_price / optimal_price_calc cost_price current_price elasticity
      else 1) elasticity)
    (base_demand * 3))

/-- The `optimal_profit_calc` value of `get_elasticity_curve` (line 360). -/
def optimal_profit_calc (powf : ℚ → ℚ → ℚ)
    (cost_price current_price base_demand elasticity : ℚ) : ℚ :=
  optimal_demand_calc powf cost_price current_price base_demand elasticity *
    (optimal_price_calc cost_price current_price elasticity - cost_price)

/-- The optimal-price computation of `get_elasticity_curve`
(recommendations.py lines 336-386), over a non-empty metrics list
`c0 :: rest`.  The `try/except` of the source is unreachable in exact
rational arithmetic (the only division is guarded by `elasticity > 1`),
so no failure branch appears. -/
def optimal_result (powf : ℚ → ℚ → ℚ) (cost_price current_price base_demand elasticity : ℚ)
    (c0 : MetricPoint) (rest : List MetricPoint) : ℚ × ℚ × ℚ :=
  if 1 < elasticity ∧ 0 < cost_price then
    let profit := optimal_profit_calc powf cost_price current_price base_demand elasticity
    let dm := discreteMaxBy c0 rest
    if dm.profit ≤ profit then
      (round2 (optimal_price_calc cost_price current_price elasticity),
        round1 (optimal_demand_calc powf cost_price current_price base_demand elasticity),
        round2 profit)
    else (dm.price, dm.demand, dm.profit)
  else
    let dm := discreteMaxBy c0 rest
    (dm.price, dm.demand, dm.profit)

/-- The optimal-price portion of `get_elasticity_curve` composed with the
metrics list built from the 20-point curve (recommendations.py 276-386);
the `[] => (0,0,0)` arm is unreachable since the curve has 20 points. -/
def endpoint_optimal (powf : ℚ → ℚ → ℚ) (p : Product) (suggested base : ℚ) : ℚ × ℚ × ℚ :=
  match curve_with_metrics p.cost_price
      (calculate_elasticity_curve powf p p.current_price suggested base) with
  | [] => (0, 0, 0)
  | c0 :: rest =>
      optimal_result powf p.cost_price p.current_price base
        (_estimate_elasticity p (curve_margin p.cost_price p.current_price)) c0 rest

/-- The trusted source list of `_validate_scraped_price` (products.py line 16). -/
def major_retailers : List String :=
  ["amazon", "walmart", "target", "bestbuy", "homedepot", "wayfair"]

/-- Python `source and source.lower() in major_retailers` (products.py line 17);
Python's `None` and `""` are both falsy, and `"".lower()` is not in the
list, so `Option.getD _ false` over the membership test is faithful. -/
def is_major_retailer (source : Option String) : Bool :=
  (source.map fun s => decide (s.toLower ∈ major_retailers)).getD false

/-- The validator `_validate_scraped_price` (products.py lines 9-43).  Python's
`cost_price and cost_price > 0` is equivalent to `0 < cost_price` (zero is
falsy), likewise for `current_price`; the source's four local bound
variables are inlined into the comparisons. -/
def _validate_scraped_price (price cost_price current_price : ℚ)
    (source : Option String) : Bool :=
  if price < 0.01 ∨ 1000000 < price then false
  else if 0 < cost_price ∧
      price < cost_price * (if is_major_retailer source then 0.4 else 0.5) then false
  else if 0 < cost_price ∧
      cost_price * (if is_major_retailer source then (15 : ℚ) else 10) < price ∧
      100 < cost_price then false
  else if 0 < current_price ∧
      (price < current_price * (if is_major_retailer source then 0.05 else 0.1) ∨
        current_price * (if is_major_retailer source then 6.0 else 5.0) < price) then false
  else true

/-- A `MarketData` row as `get_product_market_data` reads it.  `scraped_at`
is seconds since the epoch; `strftime('%Y-%m-%d %H:00')` buckets rows by
their hour and orders those bucket strings exactly as the hour numbers, so
the session key is `scraped_at / 3600`. -/
structure MarketSample where
  price : ℚ
  source : String
  scraped_at : ℕ
deriving DecidableEq, Repr

/-- The scan-session key of a row: its (date, hour) bucket. -/
def session_key (md : MarketSample) : ℕ := md.scraped_at / 3600

/-- The rows of one scan session, in input order (products.py lines 229-244). -/
def session_samples (samples : List MarketSample) (k : ℕ) : List MarketSample :=
  samples.filter fun md => decide (session_key md = k)

/-- Python `sorted(scan_sessions.keys())` (products.py line 249). -/
def session_keys (samples : List MarketSample) : List ℕ :=
  List.insertionSort (· ≤ ·) ((samples.map session_key).dedup)

/-- One entry of `trend_data` (products.py lines 253-263), restricted to the
numeric summary fields (the date/timestamp strings are formatting only). -/
structure TrendPoint where
  average : ℚ
  min : ℚ
  max : ℚ
  count : ℕ
  sources : ℕ
deriving DecidableEq, Repr

/-- The summary of one scan session (products.py lines 253-263). -/
def summarize (ms : List MarketSample) : TrendPoint :=
  let prices := ms.map (·.price)
  { average := listSum prices / (prices.length : ℚ)
    min := listMin prices
    max := listMax prices
    count := prices.length
    sources := ((ms.map (·.source)).dedup).length }

/-- The JSON payload of `get_product_market_data`, restricted to the fields
the aggregation computes. -/
structure MarketDataResult where
  trend : List TrendPoint
  currentDistribution : List ℚ
  allPrices : List ℚ
  totalDataPoints : ℕ
deriving DecidableEq, Repr

/-- The aggregation of `get_product_market_data` (products.py lines 209-288):
group rows by (date, hour), summarise each session in chronological order,
and take the most recent session's prices as the current distribution (all
prices when only one session exists). -/
def get_product_market_data (samples : List MarketSample) : MarketDataResult :=
  if samples = [] then ⟨[], [], [], 0⟩
  else
    let keys := session_keys samples
    let trend := keys.map fun k => summarize (session_samples samples k)
    let all_prices := (keys.map fun k => (session_samples samples k).map (·.price)).flatten
    let recent0 := if keys.length = 1 then all_prices
      else (session_samples samples (keys.getLastD 0)).map (·.price)
    let recent := if recent0.isEmpty then all_prices else recent0
    ⟨trend, recent, all_prices, samples.length⟩

/-- Reference elasticity, written out from the claim's words: base 1.5,
minus 0.3 for a designated luxury category, minus 0.5 if the margin exceeds
50 else plus 0.3 if it is below 30, plus 0.2 if the velocity exceeds 50,
clamped to `[0.5, 3.0]`. -/
def elasticitySpec (category : String) (current_margin sales_velocity : ℚ) : ℚ :=
  let base : ℚ := 1.5
  let a := if category ∈ luxury_categories then base - 0.3 else base
  let b := if 50 < current_margin then a - 0.5
    else if current_margin < 30 then a + 0.3 else a
  let c := if 50 < sales_velocity then b + 0.2 else b
  max 0.5 (min 3.0 c)

/-- C4: the elasticity estimate agrees with the reference definition, always
lies in `[0.5, 3.0]`, and the Loungewear / margin 55 / velocity 10 example
evaluates to exactly 0.7. -/
theorem estimate_elasticity_matches_spec (p : Product) (m : ℚ) :
    _estimate_elasticity p m = elasticitySpec p.category m p.sales_velocity ∧
    (0.5 : ℚ) ≤ _estimate_elasticity p m ∧ _estimate_elasticity p m ≤ (3.0 : ℚ) ∧
    _estimate_elasticity ⟨"id", "n", "sk", "Loungewear", 45, 100, none, 10⟩ 55 = 0.7 := by
  refine ⟨rfl, ?_, ?_, ?_⟩
  · unfold _estimate_elasticity
    exact le_max_left _ _
  · unfold _estimate_elasticity
    exact max_le (by norm_num) (min_le_left _ _)
  · have hpre : elasticityPreClamp ⟨"id", "n", "sk", "Loungewear", 45, 100, none, 10⟩ 55
        = 0.7 := by norm_num [elasticityPreClamp, luxury_categories]
    unfold _estimate_elasticity
    rw [hpre, min_eq_right (by norm_num), max_eq_right (by norm_num)]

/-- C10: the pre-clamp elasticity already lies in `[0.7, 2.0]`, so the final
clamp to `[0.5, 3.0]` never changes the computed value. -/
theorem estimate_elasticity_tight_bounds (p : Product) (m : ℚ) :
    (0.7 : ℚ) ≤ _estimate_elasticity p m ∧ _estimate_elasticity p m ≤ (2.0 : ℚ) ∧
    _estimate_elasticity p m = elasticityPreClamp p m := by
  have h : (0.7 : ℚ) ≤ elasticityPreClamp p m ∧ elasticityPreClamp p m ≤ (2.0 : ℚ) := by
    unfold elasticityPreClamp
    split_ifs <;> norm_num
  have h1 : min (3.0 : ℚ) (elasticityPreClamp p m) = elasticityPreClamp p m :=
    min_eq_right (le_trans h.2 (by norm_num))
  have h2 : max (0.5 : ℚ) (elasticityPreClamp p m) = elasticityPreClamp p m :=
    max_eq_right (le_trans (by norm_num) h.1)
  unfold _estimate_elasticity
  rw [h1, h2]
  exact ⟨h.1, h.2, rfl⟩

/-- Reference acceptance condition for `_validate_scraped_price`, written
out from the claim's rules. -/
def validateSpec (price cost_price current_price : ℚ) (major : Bool) : Prop :=
  (0.01 : ℚ) ≤ price ∧ price ≤ 1000000 ∧
  (0 < cost_price → cost_price * (if major then 0.4 else 0.5) ≤ price) ∧
  (0 < cost_price → 100 < cost_price → price ≤ cost_price * (if major then (15 : ℚ) else 10)) ∧
  (0 < current_price →
    current_price * (if major then 0.05 else 0.1) ≤ price ∧
    price ≤ current_price * (if major then 6.0 else 5.0))

/-- C7: the sample validator accepts a price exactly when none of the claim's
rejection rules fires, with the loosened bounds for major-retailer sources. -/
theorem validate_scraped_price_iff (price cost_price current_price : ℚ)
    (source : Option String) :
    _validate_scraped_price price cost_price current_price source = true ↔
      validateSpec price cost_price current_price (is_major_retailer source) := by
  unfold _validate_scraped_price validateSpec
  cases hmaj : is_major_retailer source <;>
    simp only [Bool.false_eq_true, reduceIte] <;>
    split_ifs with h1 h2 h3 h4 <;>
    [skip; skip; skip; skip; skip; skip; skip; skip; skip; skip] <;>
    first
      | (simp only [false_iff]
         rintro ⟨hp1, hp2, hc, hd, he⟩
         first
           | (rcases h1 with h | h <;> linarith)
           | (exact absurd (hc h2.1) (not_le.mpr h2.2))
           | (exact absurd (hd h3.1 h3.2.2) (not_le.mpr h3.2.1))
           | (have h5 := he h4.1; rcases h4.2 with h | h <;> linarith [h5.1, h5.2]))
      | (simp only [true_iff]
         push_neg at h1 h2 h3 h4
         refine ⟨h1.1, h1.2, fun hc => h2 hc, fun hc hcc => ?_, fun hc => ?_⟩
         · by_contra hgt
           push_neg at hgt
           exact absurd hcc (not_lt.mpr (h3 hc hgt))
         · have h5 := h4 hc
           push_neg at h5
           exact h5)

/-- A product with costPrice 100 and currentPrice 115. -/
def prodC1 : Product := ⟨"p1", "n", "s", "Other", 100, 115, none, 10⟩

/-- C1 counterexample: with costPrice = 100, currentPrice = 115 and an empty
sample list, the margin floor (step 5) still fires, so the returned
suggestedPrice is 120, not the current price 115 — the claim's "regardless
of costPrice" is false. -/
theorem no_data_fallback_cex :
    ¬ ((optimize_price prodC1 []).strategy = "No Data" ∧
       (optimize_price prodC1 []).suggestedPrice = prodC1.current_price ∧
       (optimize_price prodC1 []).confidenceScore = 50 ∧
       (optimize_price prodC1 []).riskLevel = "medium" ∧
       (optimize_price prodC1 []).marketPosition = "Unknown") := by
  intro h
  have hcore : (optimizeCore prodC1 []).suggested = 120 := by
    rw [optimizeCore_suggested]
    norm_num [floor_step, pre_floor_suggested, used_prices, avg_competitor_price, prodC1]
  have hs : (optimize_price prodC1 []).suggestedPrice = 120 := by
    rw [optimize_price_suggestedPrice, hcore]
    exact round2_eq 12000 (by norm_num) (by norm_num) (by norm_num)
  have h2 := h.2.1
  rw [hs] at h2
  norm_num [prodC1] at h2

/-- C1 (amended): with an empty sample list and currentPrice ≥ costPrice ×
1.2 (so the margin floor of step 5 does not fire), optimize_price returns
strategy "No Data", suggestedPrice = currentPrice rounded to 2 decimals,
confidence 50, risk "medium" and marketPosition "Unknown". -/
theorem no_data_fallback (p : Product) (h : p.cost_price * 1.2 ≤ p.current_price) :
    (optimize_price p []).strategy = "No Data" ∧
    (optimize_price p []).suggestedPrice = round2 p.current_price ∧
    (optimize_price p []).confidenceScore = 50 ∧
    (optimize_price p []).riskLevel = "medium" ∧
    (optimize_price p []).marketPosition = "Unknown" := by
  have hpre : pre_floor_suggested p [] = p.current_price := rfl
  have hf : floor_step p.cost_price (pre_floor_suggested p [])
      (base_rationale (used_prices p.current_price []))
      (base_risk (used_prices p.current_price []))
      = (p.current_price, base_rationale [], base_risk []) := by
    rw [hpre]
    unfold floor_step
    rw [if_neg (not_lt.mpr h)]
    rfl
  refine ⟨rfl, ?_, rfl, ?_, rfl⟩
  · rw [optimize_price_suggestedPrice, optimizeCore_suggested, hf]
  · rw [optimize_price_riskLevel, optimizeCore_risk, hf]
    rfl

/-- C1 witness: at cost 50, current 100, the amended no-data fallback holds. -/
theorem no_data_fallback_witness :
    (optimize_price ⟨"w1", "n", "s", "Other", 50, 100, none, 10⟩ []).strategy = "No Data" ∧
    (optimize_price ⟨"w1", "n", "s", "Other", 50, 100, none, 10⟩ []).suggestedPrice
      = round2 (100 : ℚ) ∧
    (optimize_price ⟨"w1", "n", "s", "Other", 50, 100, none, 10⟩ []).confidenceScore = 50 ∧
    (optimize_price ⟨"w1", "n", "s", "Other", 50, 100, none, 10⟩ []).riskLevel = "medium" ∧
    (optimize_price ⟨"w1", "n", "s", "Other", 50, 100, none, 10⟩ []).marketPosition
      = "Unknown" :=
  no_data_fallback ⟨"w1", "n", "s", "Other", 50, 100, none, 10⟩ (by norm_num)

/-- A product with costPrice 50.01 and currentPrice 100. -/
def prodC2 : Product := ⟨"p2", "n", "s", "Other", 50.01, 100, none, 0⟩

/-- C2 counterexample: with cost 50.01 and one sample 60.012, the pre-floor
suggested price 60.012 equals minPrice = 60.012, so the floor does not fire
and risk stays "low"; the returned price rounds down to 60.01, which is
≥ cost×1.1 = 55.011 but < cost×1.2 = 60.012 while riskLevel ≠ "high" —
the claim's consequence fails on the returned (rounded) suggestedPrice. -/
theorem margin_floor_cex :
    prodC2.cost_price * 1.1 ≤ (optimize_price prodC2 [60.012]).suggestedPrice ∧
    ¬ (prodC2.cost_price * 1.2 ≤ (optimize_price prodC2 [60.012]).suggestedPrice) ∧
    (optimize_price prodC2 [60.012]).riskLevel ≠ "high" := by
  have hcore : (optimizeCore prodC2 [60.012]).suggested = 60.012 := by
    rw [optimizeCore_suggested]
    norm_num [floor_step, pre_floor_suggested, used_prices, filtered_prices,
      avg_competitor_price, prodC2, listSum, List.filter_cons, List.filter_nil,
      decide_eq_true_eq]
  have hs : (optimize_price prodC2 [60.012]).suggestedPrice = 60.01 := by
    rw [optimize_price_suggestedPrice, hcore]
    exact round2_eq 6001 (by norm_num) (by norm_num) (by norm_num)
  have hr : (optimize_price prodC2 [60.012]).riskLevel = "low" := by
    rw [optimize_price_riskLevel, optimizeCore_risk]
    norm_num [floor_step, pre_floor_suggested, used_prices, filtered_prices,
      avg_competitor_price, prodC2, listSum, List.filter_cons, List.filter_nil,
      decide_eq_true_eq, base_risk]
  refine ⟨?_, ?_, ?_⟩
  · rw [hs]; norm_num [prodC2]
  · rw [hs]; norm_num [prodC2]
  · rw [hr]; decide

/-- C2 (amended): the two margin-floor branches behave as claimed, and the
claim's consequence holds of the pre-rounding suggested price: whenever the
raw suggested price is ≥ cost×1.1, it is ≥ cost×1.2 or the risk is "high"
(the returned price is that raw value rounded to 2 decimals). -/
theorem margin_floor (p : Product) (l : List ℚ) :
    (pre_floor_suggested p l < p.cost_price * 1.2 →
      p.cost_price * 1.1 ≤ pre_floor_suggested p l →
        (optimizeCore p l).suggested = p.cost_price * 1.2 ∧
        (optimize_price p l).suggestedPrice = round2 (p.cost_price * 1.2) ∧
        (optimize_price p l).riskLevel = "medium") ∧
    (pre_floor_suggested p l < p.cost_price * 1.2 →
      pre_floor_suggested p l < p.cost_price * 1.1 →
        (optimizeCore p l).suggested = pre_floor_suggested p l ∧
        (optimize_price p l).riskLevel = "high" ∧
        (optimizeCore p l).rationale
          = base_rationale (used_prices p.current_price l) ++
            " WARNING: Market price is below recommended minimum margin. Consider reviewing cost structure.") ∧
    (p.cost_price * 1.1 ≤ (optimizeCore p l).suggested →
      p.cost_price * 1.2 ≤ (optimizeCore p l).suggested ∨
        (optimize_price p l).riskLevel = "high") := by
  refine ⟨?_, ?_, ?_⟩
  · intro h1 h2
    have hf : floor_step p.cost_price (pre_floor_suggested p l)
        (base_rationale (used_prices p.current_price l))
        (base_risk (used_prices p.current_price l))
        = (p.cost_price * 1.2,
            base_rationale (used_prices p.current_price l) ++
              " Adjusted to maintain minimum 20% margin.", "medium") := by
      unfold floor_step
      rw [if_pos h1, if_pos h2]
    refine ⟨?_, ?_, ?_⟩
    · rw [optimizeCore_suggested, hf]
    · rw [optimize_price_suggestedPrice, optimizeCore_suggested, hf]
    · rw [optimize_price_riskLevel, optimizeCore_risk, hf]
  · intro h1 h2
    have hf : floor_step p.cost_price (pre_floor_suggested p l)
        (base_rationale (used_prices p.current_price l))
        (base_risk (used_prices p.current_price l))
        = (pre_floor_suggested p l,
            base_rationale (used_prices p.current_price l) ++
              " WARNING: Market price is below recommended minimum margin. Consider reviewing cost structure.",
            "high") := by
      unfold floor_step
      rw [if_pos h1, if_neg (not_le.mpr h2)]
    refine ⟨?_, ?_, ?_⟩
    · rw [optimizeCore_suggested, hf]
    · rw [optimize_price_riskLevel, optimizeCore_risk, hf]
    · rw [optimizeCore_rationale, hf]
  · intro hge
    by_cases h1 : pre_floor_suggested p l < p.cost_price * 1.2
    · by_cases h2 : p.cost_price * 1.1 ≤ pre_floor_suggested p l
      · left
        have hf : floor_step p.cost_price (pre_floor_suggested p l)
            (base_rationale (used_prices p.current_price l))
            (base_risk (used_prices p.current_price l))
            = (p.cost_price * 1.2,
                base_rationale (used_prices p.current_price l) ++
                  " Adjusted to maintain minimum 20% margin.", "medium") := by
          unfold floor_step
          rw [if_pos h1, if_pos h2]
        rw [optimizeCore_suggested, hf]
      · right
        have hf : floor_step p.cost_price (pre_floor_suggested p l)
            (base_rationale (used_prices p.current_price l))
            (base_risk (used_prices p.current_price l))
            = (pre_floor_suggested p l,
                base_rationale (used_prices p.current_price l) ++
                  " WARNING: Market price is below recommended minimum margin. Consider reviewing cost structure.",
                "high") := by
          unfold floor_step
          rw [if_pos h1, if_neg h2]
        rw [optimize_price_riskLevel, optimizeCore_risk, hf]
    · left
      have hf : floor_step p.cost_price (pre_floor_suggested p l)
          (base_rationale (used_prices p.current_price l))
          (base_risk (used_prices p.current_price l))
          = (pre_floor_suggested p l,
              base_rationale (used_prices p.current_price l),
              base_risk (used_prices p.current_price l)) := by
        unfold floor_step
        rw [if_neg h1]
      rw [optimizeCore_suggested, hf]
      exact not_lt.mp h1

/-- A product with costPrice 100 and currentPrice 115 for the C2 witness. -/
def wProdA : Product := ⟨"w2", "n", "s", "Other", 100, 115, none, 10⟩

/-- A product with costPrice 100 and currentPrice 150 for the C2 witness. -/
def wProdB : Product := ⟨"w2b", "n", "s", "Other", 100, 150, none, 5⟩

/-- C2 witness: the clamp branch at (cost 100, current 115, no samples), the
high-risk branch at (cost 100, current 150, sample 80), and the consequence
at the first input. -/
theorem margin_floor_witness :
    (optimizeCore wProdA []).suggested = wProdA.cost_price * 1.2 ∧
    (optimize_price wProdB [80]).riskLevel = "high" ∧
    (wProdA.cost_price * 1.2 ≤ (optimizeCore wProdA []).suggested ∨
      (optimize_price wProdA []).riskLevel = "high") := by
  have ha1 : pre_floor_suggested wProdA [] < wProdA.cost_price * 1.2 := by
    norm_num [pre_floor_suggested, used_prices, avg_competitor_price, wProdA]
  have ha2 : wProdA.cost_price * 1.1 ≤ pre_floor_suggested wProdA [] := by
    norm_num [pre_floor_suggested, used_prices, avg_competitor_price, wProdA]
  have hb1 : pre_floor_suggested wProdB [80] < wProdB.cost_price * 1.2 := by
    norm_num [pre_floor_suggested, used_prices, filtered_prices, avg_competitor_price,
      wProdB, listSum, List.filter_cons, List.filter_nil, decide_eq_true_eq]
  have hb2 : pre_floor_suggested wProdB [80] < wProdB.cost_price * 1.1 := by
    norm_num [pre_floor_suggested, used_prices, filtered_prices, avg_competitor_price,
      wProdB, listSum, List.filter_cons, List.filter_nil, decide_eq_true_eq]
  have hsugg := ((margin_floor wProdA []).1 ha1 ha2).1
  refine ⟨hsugg, ((margin_floor wProdB [80]).2.1 hb1 hb2).2.1, ?_⟩
  exact (margin_floor wProdA []).2.2 (by rw [hsugg]; norm_num [wProdA])

/-- C3: the optimizer's statistics are taken over the used sample list; for a
non-empty input with positive current price that list is the secondary
filter's output, falling back to the unfiltered input when the filter drops
everything; with no samples at all the statistics default to
avg = current, min = current × 0.9, max = current × 1.15. -/
theorem competitor_statistics (p : Product) (l : List ℚ) :
    ((optimizeCore p l).min_competitor
        = min_competitor_price p.current_price (used_prices p.current_price l) ∧
      (optimizeCore p l).max_competitor
        = max_competitor_price p.current_price (used_prices p.current_price l) ∧
      pre_floor_suggested p l
        = avg_competitor_price p.current_price (used_prices p.current_price l)) ∧
    (l ≠ [] → 0 < p.current_price →
      used_prices p.current_price l
        = if filtered_prices p.current_price l = [] then l
          else filtered_prices p.current_price l) ∧
    (l = [] →
      used_prices p.current_price l = [] ∧
      avg_competitor_price p.current_price (used_prices p.current_price l)
        = p.current_price ∧
      min_competitor_price p.current_price (used_prices p.current_price l)
        = p.current_price * 0.9 ∧
      max_competitor_price p.current_price (used_prices p.current_price l)
        = p.current_price * 1.15) := by
  refine ⟨⟨rfl, rfl, rfl⟩, ?_, ?_⟩
  · intro h1 h2
    unfold used_prices
    rw [if_pos ⟨h1, h2⟩]
    by_cases hf : filtered_prices p.current_price l = []
    · rw [if_pos hf, if_neg (by simpa using hf)]
    · rw [if_neg hf, if_pos hf]
  · intro h
    subst h
    exact ⟨rfl, rfl, rfl, rfl⟩

/-- A product with currentPrice 100 for the C3 witness. -/
def wProdC : Product := ⟨"w3", "n", "s", "Other", 20, 100, none, 1⟩

/-- C3 witness: at current price 100 with samples [90, 1000000] the filter
keeps only 90 and is used; with no samples the defaults apply. -/
theorem competitor_statistics_witness :
    (used_prices wProdC.current_price [(90 : ℚ), 1000000]
      = if filtered_prices wProdC.current_price [(90 : ℚ), 1000000] = []
        then [(90 : ℚ), 1000000]
        else filtered_prices wProdC.current_price [(90 : ℚ), 1000000]) ∧
    (used_prices wProdC.current_price [] = [] ∧
      avg_competitor_price wProdC.current_price (used_prices wProdC.current_price [])
        = wProdC.current_price ∧
      min_competitor_price wProdC.current_price (used_prices wProdC.current_price [])
        = wProdC.current_price * 0.9 ∧
      max_competitor_price wProdC.current_price (used_prices wProdC.current_price [])
        = wProdC.current_price * 1.15) :=
  ⟨(competitor_statistics wProdC [(90 : ℚ), 1000000]).2.1 (by decide)
      (by norm_num [wProdC]),
    (competitor_statistics wProdC []).2.2 rfl⟩

/-- A product with velocity 0.1 whose revenue impact is fractional. -/
def prodC8 : Product := ⟨"p8", "n", "s", "Other", 50, 100, none, 0.1⟩

/-- C8 counterexample: at cost 50, current 100, velocity 0.1 and one sample
90.5, the raw revenue impact is 0.1 × (90.5 − 100) × 4 = −3.8, but the
returned revenueImpact is round(−3.8) = −4, not −3.8 — revenueImpact is
rounded to an integer, not to 2 decimal places. -/
theorem output_rounding_cex :
    (optimize_price prodC8 [90.5]).revenueImpact
      ≠ round2 (optimizeCore prodC8 [90.5]).revenue_impact := by
  have hsugg : (optimizeCore prodC8 [90.5]).suggested = 90.5 := by
    rw [optimizeCore_suggested]
    norm_num [floor_step, pre_floor_suggested, used_prices, filtered_prices,
      avg_competitor_price, prodC8, listSum, List.filter_cons, List.filter_nil,
      decide_eq_true_eq]
  have hcore : (optimizeCore prodC8 [90.5]).revenue_impact = -3.8 := by
    rw [optimizeCore_revenue_impact, hsugg]
    norm_num [prodC8]
  have h0 : (optimize_price prodC8 [90.5]).revenueImpact = -4 := by
    show round0 (optimizeCore prodC8 [90.5]).revenue_impact = -4
    rw [hcore]
    exact round0_eq (-4) (by norm_num) (by norm_num) (by norm_num)
  have hr2 : round2 ((-3.8 : ℚ)) = -3.8 :=
    round2_eq (-380) (by norm_num) (by norm_num) (by norm_num)
  rw [h0, hcore, hr2]
  norm_num

/-- C8 (amended): suggestedPrice, competitorMinPrice and competitorMaxPrice
are the raw values rounded to 2 decimals, predictedMargin to 1 decimal, and
revenueImpact is rounded to the nearest integer (`round(x)`, 0 decimals);
in particular 100 × suggestedPrice is an integer and revenueImpact itself
is an integer. -/
theorem output_rounding (p : Product) (l : List ℚ) :
    (optimize_price p l).suggestedPrice = round2 (optimizeCore p l).suggested ∧
    (optimize_price p l).competitorMinPrice = round2 (optimizeCore p l).min_competitor ∧
    (optimize_price p l).competitorMaxPrice = round2 (optimizeCore p l).max_competitor ∧
    (optimize_price p l).predictedMargin = round1 (optimizeCore p l).predicted_margin ∧
    (optimize_price p l).revenueImpact = round0 (optimizeCore p l).revenue_impact ∧
    (∃ k : ℤ, (optimize_price p l).suggestedPrice * 100 = (k : ℚ)) ∧
    (∃ k : ℤ, (optimize_price p l).revenueImpact = (k : ℚ)) := by
  refine ⟨rfl, rfl, rfl, rfl, rfl,
    ⟨roundQ ((optimizeCore p l).suggested * 10 ^ 2), ?_⟩,
    ⟨roundQ (optimizeCore p l).revenue_impact, rfl⟩⟩
  show round2 (optimizeCore p l).suggested * 100 = _
  unfold round2 roundTo
  rw [show ((10 : ℚ) ^ 2) = 100 from by norm_num]
  exact div_mul_cancel₀ _ (by norm_num)

/-- A constant stand-in for the float power function, used to instantiate
curve statements at concrete inputs (the curve prices do not depend on it). -/
def pow1 : ℚ → ℚ → ℚ := fun _ _ => 1

/-- A product with costPrice 1 and currentPrice 1. -/
def prodC6 : Product := ⟨"p6", "n", "s", "Other", 1, 1, none, 0⟩

/-- The price of the curve point at index `i`, or 0 past the end. -/
def nthPrice (l : List CurvePoint) (i : ℕ) : ℚ := ((l[i]?).map CurvePoint.price).getD 0

/-- C6 counterexample: at cost 1, current 1, the grid runs from 0.8 to 1.5
in steps of 0.7/19 ≈ 0.0368, and the returned 2-decimal prices are
0.8, 0.84, 0.87, ... — consecutive differences 0.04 and 0.03 differ, so the
returned prices are not equally spaced. -/
theorem elasticity_curve_cex :
    ¬ ∃ d : ℚ, ∀ i : ℕ,
        i + 1 < (calculate_elasticity_curve pow1 prodC6 1 1 100).length →
        nthPrice (calculate_elasticity_curve pow1 prodC6 1 1 100) (i + 1) -
          nthPrice (calculate_elasticity_curve pow1 prodC6 1 1 100) i = d := by
  rintro ⟨d, hd⟩
  have hlen : (calculate_elasticity_curve pow1 prodC6 1 1 100).length = 20 := by
    simp [calculate_elasticity_curve]
  have hget : ∀ i : ℕ, i < 20 →
      nthPrice (calculate_elasticity_curve pow1 prodC6 1 1 100) i
        = round2 (curve_price prodC6.cost_price 1 i) := by
    intro i hi
    simp [nthPrice, calculate_elasticity_curve, List.getElem?_map, List.getElem?_range, hi]
  have hcp : ∀ i : ℕ, curve_price prodC6.cost_price 1 i = 0.8 + 0.7 * ((i : ℚ) / 19) := by
    intro i
    unfold curve_price
    rw [show max ((prodC6.cost_price) * 0.8) ((1:ℚ) * 0.5) = 0.8 by
      rw [max_def]; norm_num [prodC6]]
    rw [show min ((1:ℚ) * 2.0) ((1:ℚ) * 1.5) = 1.5 by rw [min_def]; norm_num]
    norm_num
  have e0 : nthPrice (calculate_elasticity_curve pow1 prodC6 1 1 100) 0 = 0.8 := by
    rw [hget 0 (by norm_num), hcp 0]
    exact round2_eq 80 (by norm_num) (by norm_num) (by norm_num)
  have e1 : nthPrice (calculate_elasticity_curve pow1 prodC6 1 1 100) 1 = 0.84 := by
    rw [hget 1 (by norm_num), hcp 1]
    exact round2_eq 84 (by norm_num) (by norm_num) (by norm_num)
  have e2 : nthPrice (calculate_elasticity_curve pow1 prodC6 1 1 100) 2 = 0.87 := by
    rw [hget 2 (by norm_num), hcp 2]
    exact round2_eq 87 (by norm_num) (by norm_num) (by norm_num)
  have h0 := hd 0 (by rw [hlen]; norm_num)
  have h1 := hd 1 (by rw [hlen]; norm_num)
  rw [e0, e1] at h0
  rw [e1, e2] at h1
  rw [← h0] at h1
  norm_num at h1

/-- C6 (amended): for positive currentPrice the curve has exactly 20 points;
the i-th point's price is the equally spaced grid value
`min_price + (max_price - min_price) * i/19` rounded to 2 decimals (grid
endpoints `max(cost*0.8, current*0.5)` and `min(current*2, current*1.5) =
current*1.5`, the pre-rounding consecutive differences all equal), and its
demand is the constant-elasticity formula `base * (current/price)^e`,
evaluated at the unrounded grid price and clamped to `[0, base*3]`, rounded
to 1 decimal. -/
theorem elasticity_curve_shape (powf : ℚ → ℚ → ℚ) (p : Product)
    (current suggested base : ℚ) (h : 0 < current) :
    (calculate_elasticity_curve powf p current suggested base).length = 20 ∧
    (∀ i : ℕ, i < 20 →
      (calculate_elasticity_curve powf p current suggested base)[i]?
        = some ⟨round2 (curve_price p.cost_price current i),
                round1 (curve_demand powf p current base i)⟩) ∧
    curve_price p.cost_price current 0 = max (p.cost_price * 0.8) (current * 0.5) ∧
    curve_price p.cost_price current 19 = min (current * 2.0) (current * 1.5) ∧
    (∀ i : ℕ,
      curve_price p.cost_price current (i + 1) - curve_price p.cost_price current i
        = (min (current * 2.0) (current * 1.5) - max (p.cost_price * 0.8) (current * 0.5)) / 19) ∧
    min (current * 2.0) (current * 1.5) = current * 1.5 ∧
    (∀ i : ℕ,
      curve_demand powf p current base i
        = max 0 (min (base * powf
            (if 0 < curve_price p.cost_price current i then
              current / curve_price p.cost_price current i else 1)
            (_estimate_elasticity p (curve_margin p.cost_price current)))
          (base * 3))) := by
  refine ⟨by simp [calculate_elasticity_curve], ?_, ?_, ?_, ?_, ?_, fun i => rfl⟩
  · intro i hi
    simp [calculate_elasticity_curve, List.getElem?_map, List.getElem?_range, hi]
  · unfold curve_price
    norm_num
  · unfold curve_price
    norm_num
  · intro i
    unfold curve_price
    push_cast
    ring
  · exact min_eq_right (by linarith)

/-- Python's `max(list, key=profit)` returns an element of the list whose
profit bounds every element's profit. -/
theorem discreteMaxBy_spec (c0 : MetricPoint) (rest : List MetricPoint) :
    discreteMaxBy c0 rest ∈ c0 :: rest ∧
      ∀ x ∈ c0 :: rest, x.profit ≤ (discreteMaxBy c0 rest).profit := by
  induction rest generalizing c0 with
  | nil =>
    refine ⟨List.mem_cons_self _ _, ?_⟩
    intro x hx
    rcases List.mem_cons.mp hx with rfl | hx
    · exact le_refl _
    · simp at hx
  | cons b t ih =>
    have hstep : discreteMaxBy c0 (b :: t)
        = discreteMaxBy (if c0.profit < b.profit then b else c0) t := rfl
    obtain ⟨hmem, hbound⟩ := ih (if c0.profit < b.profit then b else c0)
    constructor
    · rw [hstep]
      rcases List.mem_cons.mp hmem with heq | hmt
      · rw [heq]
        by_cases hb : c0.profit < b.profit
        · rw [if_pos hb]
          exact List.mem_cons_of_mem _ (List.mem_cons_self _ _)
        · rw [if_neg hb]
          exact List.mem_cons_self _ _
      · exact List.mem_cons_of_mem _ (List.mem_cons_of_mem _ hmt)
    · intro x hx
      rw [hstep]
      rcases List.mem_cons.mp hx with rfl | hx2
      · refine le_trans ?_ (hbound _ (List.mem_cons_self _ _))
        by_cases hb : x.profit < b.profit
        · rw [if_pos hb]
          exact le_of_lt hb
        · rw [if_neg hb]
      · rcases List.mem_cons.mp hx2 with rfl | hx3
        · refine le_trans ?_ (hbound _ (List.mem_cons_self _ _))
          by_cases hb : c0.profit < x.profit
          · rw [if_pos hb]
          · rw [if_neg hb]
            exact le_of_not_lt hb
        · exact hbound _ (List.mem_cons_of_mem _ hx3)

/-- C5: in the elasticity-curve endpoint, the discrete maximum is a true
maximum of the metrics list; when elasticity > 1 and cost > 0 the result is
the clamped closed-form optimum (price `cost*e/(e-1)` raised to at least
`cost*1.1` and capped at `current*2`, demand and profit recomputed there)
if its profit reaches the discrete maximum's profit, and the discrete
maximum point otherwise; when elasticity ≤ 1 or cost ≤ 0 the discrete
maximum point is returned directly; the endpoint applies this computation
to the metrics list of the 20-point curve. -/
theorem optimal_price_characterization (powf : ℚ → ℚ → ℚ)
    (cost current base e : ℚ) (c0 : MetricPoint) (rest : List MetricPoint) :
    (discreteMaxBy c0 rest ∈ c0 :: rest ∧
      ∀ x ∈ c0 :: rest, x.profit ≤ (discreteMaxBy c0 rest).profit) ∧
    (1 < e → 0 < cost →
      (discreteMaxBy c0 rest).profit ≤ optimal_profit_calc powf cost current base e →
        optimal_result powf cost current base e c0 rest
          = (round2 (optimal_price_calc cost current e),
             round1 (optimal_demand_calc powf cost current base e),
             round2 (optimal_profit_calc powf cost current base e))) ∧
    (1 < e → 0 < cost →
      optimal_profit_calc powf cost current base e < (discreteMaxBy c0 rest).profit →
        optimal_result powf cost current base e c0 rest
          = ((discreteMaxBy c0 rest).price, (discreteMaxBy c0 rest).demand,
             (discreteMaxBy c0 rest).profit)) ∧
    (¬ (1 < e ∧ 0 < cost) →
      optimal_result powf cost current base e c0 rest
        = ((discreteMaxBy c0 rest).price, (discreteMaxBy c0 rest).demand,
           (discreteMaxBy c0 rest).profit)) ∧
    (∀ (p : Product) (s b : ℚ),
      (curve_with_metrics p.cost_price
        (calculate_elasticity_curve powf p p.current_price s b)).length = 20) ∧
    (∀ (p : Product) (s b : ℚ) (c0m : MetricPoint) (restm : List MetricPoint),
      curve_with_metrics p.cost_price
          (calculate_elasticity_curve powf p p.current_price s b) = c0m :: restm →
        endpoint_optimal powf p s b
          = optimal_result powf p.cost_price p.current_price b
              (_estimate_elasticity p (curve_margin p.cost_price p.current_price))
              c0m restm) := by
  refine ⟨discreteMaxBy_spec c0 rest, ?_, ?_, ?_, ?_, ?_⟩
  · intro h1 h2 h3
    unfold optimal_result
    rw [if_pos ⟨h1, h2⟩, if_pos h3]
  · intro h1 h2 h3
    unfold optimal_result
    rw [if_pos ⟨h1, h2⟩, if_neg (not_le.mpr h3)]
  · intro h
    unfold optimal_result
    rw [if_neg h]
  · intro p s b
    simp [curve_with_metrics, calculate_elasticity_curve]
  · intro p s b c0m restm hm
    unfold endpoint_optimal
    rw [hm]

/-- A metric point with profit 5. -/
def mpLow : MetricPoint := ⟨1, 1, 1, 5, 1⟩

/-- A metric point with profit 1000. -/
def mpHigh : MetricPoint := ⟨3, 2, 6, 1000, 1⟩

/-- C5 witness: at cost 1, current 1, base 100, e = 2 the closed-form branch
fires against a low discrete maximum and the discrete branch against a high
one; at e = 1/2 the discrete maximum is returned; and on a concrete product
the endpoint equals the optimal computation on its 20-point metrics list. -/
theorem optimal_price_characterization_witness :
    (optimal_result pow1 1 1 100 2 mpLow []
      = (round2 (optimal_price_calc 1 1 2),
         round1 (optimal_demand_calc pow1 1 1 100 2),
         round2 (optimal_profit_calc pow1 1 1 100 2))) ∧
    (optimal_result pow1 1 1 100 2 mpHigh []
      = ((discreteMaxBy mpHigh []).price, (discreteMaxBy mpHigh []).demand,
         (discreteMaxBy mpHigh []).profit)) ∧
    (optimal_result pow1 1 1 100 (1/2) mpLow []
      = ((discreteMaxBy mpLow []).price, (discreteMaxBy mpLow []).demand,
         (discreteMaxBy mpLow []).profit)) ∧
    (∃ c0m restm,
      curve_with_metrics prodC6.cost_price
          (calculate_elasticity_curve pow1 prodC6 prodC6.current_price 1 100)
        = c0m :: restm ∧
      endpoint_optimal pow1 prodC6 1 100
        = optimal_result pow1 prodC6.cost_price prodC6.current_price 100
            (_estimate_elasticity prodC6
              (curve_margin prodC6.cost_price prodC6.current_price)) c0m restm) := by
  have hpc : optimal_price_calc 1 1 2 = 2 := by
    unfold optimal_price_calc
    rw [show max ((1:ℚ) * 1.1) ((1:ℚ) * 2 / (2 - 1)) = 2 by rw [max_def]; norm_num]
    rw [min_def]
    norm_num
  have hdm : optimal_demand_calc pow1 1 1 100 2 = 100 := by
    unfold optimal_demand_calc
    rw [hpc]
    rw [show min ((100:ℚ) * pow1 (if (0:ℚ) < 2 then 1/2 else 1) 2) ((100:ℚ) * 3) = 100 by
      rw [min_def]; norm_num [pow1]]
    rw [max_def]
    norm_num
  have hpr : optimal_profit_calc pow1 1 1 100 2 = 100 := by
    unfold optimal_profit_calc
    rw [hdm, hpc]
    norm_num
  refine ⟨?_, ?_, ?_, ?_⟩
  · exact (optimal_price_characterization pow1 1 1 100 2 mpLow []).2.1
      (by norm_num) (by norm_num)
      (by rw [hpr]; show (5:ℚ) ≤ 100; norm_num)
  · exact (optimal_price_characterization pow1 1 1 100 2 mpHigh []).2.2.1
      (by norm_num) (by norm_num)
      (by rw [hpr]; show (100:ℚ) < 1000; norm_num)
  · exact (optimal_price_characterization pow1 1 1 100 (1/2) mpLow []).2.2.2.1
      (by norm_num)
  · have hlen := (optimal_price_characterization pow1 1 1 100 2 mpLow
        []).2.2.2.2.1 prodC6 1 100
    have hcur : prodC6.current_price = 1 := rfl
    rw [hcur] at hlen
    cases hcw : curve_with_metrics prodC6.cost_price
        (calculate_elasticity_curve pow1 prodC6 prodC6.current_price 1 100) with
    | nil =>
      rw [hcur] at hcw
      rw [hcw] at hlen
      simp at hlen
    | cons a t =>
      exact ⟨a, t, rfl,
        (optimal_price_characterization pow1 1 1 100 2 mpLow
          []).2.2.2.2.2 prodC6 1 100 a t hcw⟩

/-- C6 witness: the amended curve shape at cost 1, current 1, base 100. -/
theorem elasticity_curve_shape_witness :
    (calculate_elasticity_curve pow1 prodC6 1 1 100).length = 20 ∧
    (calculate_elasticity_curve pow1 prodC6 1 1 100)[0]?
      = some ⟨round2 (curve_price prodC6.cost_price 1 0),
              round1 (curve_demand pow1 prodC6 1 100 0)⟩ ∧
    curve_price prodC6.cost_price 1 0 = max (prodC6.cost_price * 0.8) ((1 : ℚ) * 0.5) ∧
    min ((1 : ℚ) * 2.0) ((1 : ℚ) * 1.5) = (1 : ℚ) * 1.5 := by
  have h := elasticity_curve_shape pow1 prodC6 1 1 100 (by norm_num)
  exact ⟨h.1, h.2.1 0 (by norm_num), h.2.2.1, h.2.2.2.2.2.1⟩

/-- The default-or-last element of a non-empty list is a member. -/
theorem getLastD_mem_of_ne_nil (l : List ℕ) (d : ℕ) (h : l ≠ []) : l.getLastD d ∈ l := by
  cases l with
  | nil => exact absurd rfl h
  | cons b u =>
    rw [List.getLastD_cons]
    exact List.getLastD_mem_cons u b

/-- In a `≤`-sorted list every element is bounded by the last element. -/
theorem sorted_le_getLastD (l : List ℕ) (d : ℕ) (hs : List.Sorted (· ≤ ·) l) :
    ∀ x ∈ l, x ≤ l.getLastD d := by
  induction l generalizing d with
  | nil => intro x hx; simp at hx
  | cons a t ih =>
    intro x hx
    rw [List.getLastD_cons]
    rcases List.mem_cons.mp hx with rfl | hxt
    · cases t with
      | nil => exact le_refl x
      | cons b u =>
        exact (List.sorted_cons.mp hs).1 _ (getLastD_mem_of_ne_nil (b :: u) x (by simp))
    · exact ih a (List.sorted_cons.mp hs).2 x hxt

/-- The session keys are always sorted ascending. -/
theorem session_keys_sorted (samples : List MarketSample) :
    List.Sorted (· ≤ ·) (session_keys samples) :=
  List.sorted_insertionSort _ _

/-- A key occurs among the session keys exactly when some row produces it. -/
theorem mem_session_keys (samples : List MarketSample) (k : ℕ) :
    k ∈ session_keys samples ↔ ∃ md ∈ samples, session_key md = k := by
  unfold session_keys
  rw [List.mem_insertionSort, List.mem_dedup, List.mem_map]

/-- The session of an occurring key is non-empty. -/
theorem session_samples_ne_nil (samples : List MarketSample) (k : ℕ)
    (h : k ∈ session_keys samples) : session_samples samples k ≠ [] := by
  obtain ⟨md, hmd, hk⟩ := (mem_session_keys samples k).mp h
  intro hnil
  have : md ∈ session_samples samples k :=
    List.mem_filter.mpr ⟨hmd, by simp [hk]⟩
  rw [hnil] at this
  simp at this

/-- A non-empty sample list yields a non-empty key list. -/
theorem session_keys_ne_nil (samples : List MarketSample) (h : samples ≠ []) :
    session_keys samples ≠ [] := by
  cases samples with
  | nil => exact absurd rfl h
  | cons a t =>
    have : session_key a ∈ session_keys (a :: t) :=
      (mem_session_keys (a :: t) (session_key a)).mpr
        ⟨a, List.mem_cons_self a t, rfl⟩
    intro hnil
    rw [hnil] at this
    simp at this

/-- A non-empty list has `isEmpty = false`. -/
theorem isEmpty_false_of_ne_nil (l : List ℚ) (h : l ≠ []) : l.isEmpty = false := by
  cases l with
  | nil => exact absurd rfl h
  | cons a t => rfl

/-- C9: the market-data aggregation groups rows into (date, hour) sessions,
returns their summaries in chronological (sorted-key) order, reports the
total row count, and takes as the current distribution all prices when
exactly one session exists and the prices of the most recent (largest-key)
session when several exist; an empty row set yields empty trend, empty
distribution and total 0. -/
theorem market_data_aggregation (samples : List MarketSample) :
    get_product_market_data ([] : List MarketSample) = ⟨[], [], [], 0⟩ ∧
    (samples ≠ [] →
      (get_product_market_data samples).trend
        = (session_keys samples).map (fun k => summarize (session_samples samples k)) ∧
      List.Sorted (· ≤ ·) (session_keys samples) ∧
      (get_product_market_data samples).totalDataPoints = samples.length ∧
      (get_product_market_data samples).allPrices
        = ((session_keys samples).map fun k =>
            (session_samples samples k).map (fun md => md.price)).flatten ∧
      ((session_keys samples).length = 1 →
        (get_product_market_data samples).currentDistribution
          = (get_product_market_data samples).allPrices) ∧
      (1 < (session_keys samples).length →
        ∃ K, K ∈ session_keys samples ∧ (∀ k ∈ session_keys samples, k ≤ K) ∧
          (get_product_market_data samples).currentDistribution
            = (session_samples samples K).map (fun md => md.price))) := by
  refine ⟨rfl, ?_⟩
  intro h
  have htrend : (get_product_market_data samples).trend
      = (session_keys samples).map (fun k => summarize (session_samples samples k)) := by
    unfold get_product_market_data
    rw [if_neg h]
  have htot : (get_product_market_data samples).totalDataPoints = samples.length := by
    unfold get_product_market_data
    rw [if_neg h]
  have hall : (get_product_market_data samples).allPrices
      = ((session_keys samples).map fun k =>
          (session_samples samples k).map (fun md => md.price)).flatten := by
    unfold get_product_market_data
    rw [if_neg h]
  have hcd : (get_product_market_data samples).currentDistribution
      = (if (if (session_keys samples).length = 1
            then ((session_keys samples).map fun k =>
                (session_samples samples k).map (fun md => md.price)).flatten
            else (session_samples samples
                ((session_keys samples).getLastD 0)).map (fun md => md.price)).isEmpty
          then ((session_keys samples).map fun k =>
              (session_samples samples k).map (fun md => md.price)).flatten
          else (if (session_keys samples).length = 1
            then ((session_keys samples).map fun k =>
                (session_samples samples k).map (fun md => md.price)).flatten
            else (session_samples samples
                ((session_keys samples).getLastD 0)).map (fun md => md.price))) := by
    unfold get_product_market_data
    rw [if_neg h]
  refine ⟨htrend, session_keys_sorted samples, htot, hall, ?_, ?_⟩
  · intro h1
    rw [hcd, if_pos h1, ite_self, hall]
  · intro h1
    refine ⟨(session_keys samples).getLastD 0,
      getLastD_mem_of_ne_nil _ 0 (session_keys_ne_nil samples h),
      sorted_le_getLastD _ 0 (session_keys_sorted samples), ?_⟩
    have hne1 : ¬ (session_keys samples).length = 1 := by omega
    rw [hcd, if_neg hne1]
    have hLne : (session_samples samples
        ((session_keys samples).getLastD 0)).map (fun md => md.price) ≠ [] := by
      intro hnil
      exact session_samples_ne_nil samples _
        (getLastD_mem_of_ne_nil _ 0 (session_keys_ne_nil samples h))
        (List.map_eq_nil.mp hnil)
    rw [isEmpty_false_of_ne_nil _ hLne]
    rw [if_neg (by exact Bool.false_ne_true)]

/-- Three concrete market rows: two in the epoch hour 0, one in hour 1. -/
def wSamples : List MarketSample :=
  [⟨10, "a", 0⟩, ⟨20, "b", 60⟩, ⟨30, "a", 3700⟩]

/-- C9 witness: on three rows spanning two scan sessions the aggregation
reports the sorted keys as the trend order, the total of 3, and the last
session's prices as the current distribution. -/
theorem market_data_aggregation_witness :
    get_product_market_data ([] : List MarketSample) = ⟨[], [], [], 0⟩ ∧
    (get_product_market_data wSamples).trend
      = (session_keys wSamples).map (fun k => summarize (session_samples wSamples k)) ∧
    (get_product_market_data wSamples).totalDataPoints = wSamples.length ∧
    (∃ K, K ∈ session_keys wSamples ∧ (∀ k ∈ session_keys wSamples, k ≤ K) ∧
      (get_product_market_data wSamples).currentDistribution
        = (session_samples wSamples K).map (fun md => md.price)) := by
  have h := market_data_aggregation wSamples
  have hne : wSamples ≠ [] := by simp [wSamples]
  have hlen : 1 < (session_keys wSamples).length := by
    have h01 : (0 : ℕ) ∈ session_keys wSamples :=
      (mem_session_keys wSamples 0).mpr ⟨⟨10, "a", 0⟩, by simp [wSamples], rfl⟩
    have h11 : (1 : ℕ) ∈ session_keys wSamples :=
      (mem_session_keys wSamples 1).mpr
        ⟨⟨30, "a", 3700⟩, by simp [wSamples], by norm_num [session_key]⟩
    rcases hk : session_keys wSamples with _ | ⟨a, _ | ⟨b, t⟩⟩
    · rw [hk] at h01
      simp at h01
    · rw [hk] at h01 h11
      simp at h01 h11
      omega
    · simp
  exact ⟨h.1, (h.2 hne).1, (h.2 hne).2.2.1, (h.2 hne).2.2.2.2.2 hlen⟩

end OptimaPricer
